import Mathlib

/-!
Verification of the `forge-agent-shim` launcher
(`src/tools/forge-agent-shim/src/main.rs`), a process-launching shim that
resolves a script path from the `FORGE_AGENT_SCRIPT` environment variable or
from its own invocation name, launches `node` on that script with the
forwarded arguments, and propagates the exit status of the child.

The Rust code is shallowly embedded: strings are Lean `String`s (lists of
characters), the environment read, the argument vector and the child
process behaviour are explicit parameters, and `main` becomes a pure
function from those inputs to an `Outcome` recording the exit code, the
diagnostic written to the error stream (if any), and the child command
spawned (if any).
-/

namespace ForgeAgentShim

/-- Per-character ASCII lowercasing, as the Rust `to_ascii_lowercase`:
`A`..`Z` map to `a`..`z`, every other character is unchanged. -/
def asciiLowerChar (c : Char) : Char :=
  if 65 ≤ c.toNat ∧ c.toNat ≤ 90 then Char.ofNat (c.toNat + 32) else c

/-- `exe_name.to_ascii_lowercase()` applied character-wise. -/
def toAsciiLowercase (s : String) : String :=
  ⟨s.data.map asciiLowerChar⟩

/-- Pattern-at-the-front test on character lists (the anchored step of the
Rust substring search). -/
def isPrefixList : List Char → List Char → Bool
  | [], _ => true
  | _ :: _, [] => false
  | p :: ps, h :: hs => p == h && isPrefixList ps hs

/-- Substring containment on character lists, as the Rust `str::contains`
with a string pattern: the pattern occurs contiguously somewhere in the
haystack (the empty pattern is contained in every string). -/
def listContainsSub : List Char → List Char → Bool
  | [], pat => pat.isEmpty
  | h :: t, pat => isPrefixList pat (h :: t) || listContainsSub t pat

/-- `s.contains(pat)` for Rust strings. -/
def strContainsSub (s pat : String) : Bool :=
  listContainsSub s.data pat.data

/-- The hardcoded Gemini CLI entry script path from
`default_node_script_from_exe`. -/
def geminiPath : String :=
  "C:\\Users\\hithe\\AppData\\Roaming\\npm\\node_modules\\@google\\gemini-cli\\dist\\index.js"

/-- The hardcoded Codex CLI entry script path from
`default_node_script_from_exe`. -/
def codexPath : String :=
  "C:\\Users\\hithe\\AppData\\Roaming\\npm\\node_modules\\@openai\\codex\\bin\\codex.js"

/-- Embedding of `default_node_script_from_exe`: lowercase the invocation
name (ASCII), return the Gemini path if it contains `"gemini"`, else the
Codex path if it contains `"codex"`, else `none`. -/
def default_node_script_from_exe (exe_name : String) : Option String :=
  let lower := toAsciiLowercase exe_name
  if strContainsSub lower "gemini" then some geminiPath
  else if strContainsSub lower "codex" then some codexPath
  else none

/-- The result of `env::var("FORGE_AGENT_SCRIPT")`: a Unicode value, or one
of the two `VarError` cases (`NotPresent`, `NotUnicode`). -/
inductive VarResult where
  | ok (v : String)
  | errNotPresent
  | errNotUnicode
deriving DecidableEq

/-- the Rust `char::is_whitespace`: membership in the Unicode `White_Space`
set (U+0009..U+000D, U+0020, U+0085, U+00A0, U+1680, U+2000..U+200A,
U+2028, U+2029, U+202F, U+205F, U+3000). -/
def rustIsWhitespace (c : Char) : Bool :=
  let n := c.toNat
  (9 ≤ n && n ≤ 13) || n == 32 || n == 133 || n == 160 || n == 0x1680 ||
  (0x2000 ≤ n && n ≤ 0x200A) || n == 0x2028 || n == 0x2029 ||
  n == 0x202F || n == 0x205F || n == 0x3000

/-- Drop the longest suffix of characters satisfying `p`. -/
def dropTrailing (p : Char → Bool) (l : List Char) : List Char :=
  (l.reverse.dropWhile p).reverse

/-- the Rust `str::trim`: the string with leading and trailing Unicode
whitespace removed. -/
def rustTrim (s : String) : String :=
  ⟨dropTrailing rustIsWhitespace (s.data.dropWhile rustIsWhitespace)⟩

/-- The script-resolution step of `main`: the `match env::var(...)` block.
`Ok(v)` with `!v.trim().is_empty()` yields `v` verbatim; every other case
falls through to `default_node_script_from_exe`. -/
def resolveScript (envResult : VarResult) (exe_name : String) : Option String :=
  match envResult with
  | .ok v =>
      if !(rustTrim v).data.isEmpty then some v
      else default_node_script_from_exe exe_name
  | .errNotPresent => default_node_script_from_exe exe_name
  | .errNotUnicode => default_node_script_from_exe exe_name

/-- A child-process invocation: the program name handed to `Command::new`
and its argument list (`.arg(script).args(rest)`). -/
structure CommandSpec where
  program : String
  args : List String
deriving DecidableEq

/-- A diagnostic line written to the error stream by `eprintln!`. -/
inductive Diag where
  | noScript (msg : String)
  | launchErr (msg : String)
deriving DecidableEq

/-- The outcome of `Command::status()`: the child started and terminated
(with `s.code()` being an optional exit code), or it failed to start
(an `io::Error`, carried here as its display text). -/
inductive SpawnResult where
  | ok (code : Option Int)
  | err (e : String)
deriving DecidableEq

/-- Everything observable about one run of the shim. -/
structure Outcome where
  exitCode : Nat
  diag : Option Diag
  spawned : Option CommandSpec
deriving DecidableEq

/-- The `eprintln!` text of the resolution-failure branch. -/
def noScriptMsg (exe_name : String) : String :=
  "FORGE_AGENT_SCRIPT is not set and script cannot be inferred from shim name: "
    ++ exe_name

/-- The `eprintln!` text of the launch-failure branch. -/
def launchErrMsg (e : String) : String :=
  "failed to launch target process: " ++ e

/-- the Rust `i32 as u8` on `s.code().unwrap_or(1)`: truncation to the low
8 bits, i.e. the Euclidean remainder modulo 256. -/
def exitFromStatus (code : Option Int) : Nat :=
  ((code.getD 1) % 256).toNat

/-- Embedding of `main`. `argv` is the full OS argument vector
(`env::args()`), so `exe_name` is `argv.headD ""` (`next().unwrap_or_default()`)
and `rest` is `argv.tail`. `envResult` is the value of
`env::var("FORGE_AGENT_SCRIPT")` and `child` is what `Command::status()`
returns for the (single) spawn attempt. -/
def mainShim (argv : List String) (envResult : VarResult)
    (child : SpawnResult) : Outcome :=
  let exe_name := argv.headD ""
  let rest := argv.tail
  match resolveScript envResult exe_name with
  | none =>
      { exitCode := 2
        diag := some (.noScript (noScriptMsg exe_name))
        spawned := none }
  | some script =>
      let cmd : CommandSpec := { program := "node", args := script :: rest }
      match child with
      | .ok code =>
          { exitCode := exitFromStatus code, diag := none, spawned := some cmd }
      | .err e =>
          { exitCode := 1
            diag := some (.launchErr (launchErrMsg e))
            spawned := some cmd }

/-! Helper lemmas about the embedded definitions. -/

/-- A name whose lowercasing contains neither pattern gets no default
script. -/
theorem default_none_of_neither (name : String)
    (hg : strContainsSub (toAsciiLowercase name) "gemini" = false)
    (hc : strContainsSub (toAsciiLowercase name) "codex" = false) :
    default_node_script_from_exe name = none := by
  simp [default_node_script_from_exe, hg, hc]

/-- A blank override value falls through to name-based resolution. -/
theorem resolveScript_ok_blank (v name : String)
    (hv : (rustTrim v).data.isEmpty = true) :
    resolveScript (.ok v) name = default_node_script_from_exe name := by
  simp [resolveScript, hv]

/-- Shape of the run when a script is resolved and the child reports a
status. -/
theorem mainShim_resolved_ok (argv : List String) (env : VarResult)
    (code : Option Int) (script : String)
    (h : resolveScript env (argv.headD "") = some script) :
    mainShim argv env (.ok code) =
      { exitCode := exitFromStatus code
        diag := none
        spawned := some { program := "node", args := script :: argv.tail } } := by
  simp only [mainShim, h]

/-- Shape of the run when a script is resolved and the spawn fails. -/
theorem mainShim_resolved_err (argv : List String) (env : VarResult)
    (e : String) (script : String)
    (h : resolveScript env (argv.headD "") = some script) :
    mainShim argv env (.err e) =
      { exitCode := 1
        diag := some (.launchErr (launchErrMsg e))
        spawned := some { program := "node", args := script :: argv.tail } } := by
  simp only [mainShim, h]

/-- Shape of the run when no script is resolved. -/
theorem mainShim_unresolved (argv : List String) (env : VarResult)
    (child : SpawnResult)
    (h : resolveScript env (argv.headD "") = none) :
    mainShim argv env child =
      { exitCode := 2
        diag := some (.noScript (noScriptMsg (argv.headD "")))
        spawned := none } := by
  simp only [mainShim, h]

/-! Theorems for the claims. -/

/-- Claim C1: if `FORGE_AGENT_SCRIPT` is read successfully and its value is
non-empty after trimming, that value is the resolved script path verbatim
(untrimmed) for every invocation name, and the spawned command runs it;
name-based inference is never consulted. -/
theorem C1_override_wins (argv : List String) (v : String) (child : SpawnResult)
    (h : (rustTrim v).data.isEmpty = false) :
    resolveScript (.ok v) (argv.headD "") = some v ∧
    (mainShim argv (.ok v) child).spawned =
      some { program := "node", args := v :: argv.tail } := by
  have hres : resolveScript (.ok v) (argv.headD "") = some v := by
    simp [resolveScript, h]
  refine ⟨hres, ?_⟩
  cases child with
  | ok code => rw [mainShim_resolved_ok argv _ code v hres]
  | err e => rw [mainShim_resolved_err argv _ e v hres]

/-- Witness for C1 at the spec scenario `FORGE_AGENT_SCRIPT="/custom/script.js"`
with a name containing neither substring. -/
theorem C1_override_wins_witness :
    (rustTrim "/custom/script.js").data.isEmpty = false ∧
    (mainShim ["myshim", "--flag"] (.ok "/custom/script.js")
        (.ok (some 0))).spawned =
      some { program := "node", args := ["/custom/script.js", "--flag"] } :=
  ⟨rfl, (C1_override_wins ["myshim", "--flag"] "/custom/script.js"
    (.ok (some 0)) rfl).2⟩

/-- Claim C2: when the invocation name contains neither `gemini` nor `codex`
(after ASCII lowercasing) and the override variable is unset or blank after
trimming, the run exits with code 2, writes the diagnostic naming
`FORGE_AGENT_SCRIPT` and the invocation name, and spawns no child. -/
theorem C2_unresolved_exits_two (argv : List String) (child : SpawnResult)
    (env : VarResult)
    (henv : env = .errNotPresent ∨
      ∃ v, env = .ok v ∧ (rustTrim v).data.isEmpty = true)
    (hg : strContainsSub (toAsciiLowercase (argv.headD "")) "gemini" = false)
    (hc : strContainsSub (toAsciiLowercase (argv.headD "")) "codex" = false) :
    mainShim argv env child =
      { exitCode := 2
        diag := some (.noScript (noScriptMsg (argv.headD "")))
        spawned := none } := by
  have hdef : default_node_script_from_exe (argv.headD "") = none :=
    default_none_of_neither (argv.headD "") hg hc
  have hres : resolveScript env (argv.headD "") = none := by
    rcases henv with rfl | ⟨v, rfl, hv⟩
    · exact hdef
    · rw [resolveScript_ok_blank v _ hv]; exact hdef
  exact mainShim_unresolved argv env child hres

/-- Witness for C2 at the spec scenario: name `myshim`, override set to
whitespace only. -/
theorem C2_unresolved_exits_two_witness :
    ((VarResult.ok "  ") = VarResult.errNotPresent ∨
      ∃ v, (VarResult.ok "  ") = VarResult.ok v ∧
        (rustTrim v).data.isEmpty = true) ∧
    strContainsSub (toAsciiLowercase "myshim") "gemini" = false ∧
    strContainsSub (toAsciiLowercase "myshim") "codex" = false ∧
    mainShim ["myshim"] (.ok "  ") (.ok (some 0)) =
      { exitCode := 2
        diag := some (.noScript (noScriptMsg "myshim"))
        spawned := none } :=
  ⟨Or.inr ⟨"  ", rfl, rfl⟩, rfl, rfl,
    C2_unresolved_exits_two ["myshim"] (.ok (some 0)) (.ok "  ")
      (Or.inr ⟨"  ", rfl, rfl⟩) rfl rfl⟩

/-- Claim C3: with the override unset, every invocation name whose ASCII
lowercasing contains `gemini` resolves to exactly the hardcoded Gemini
path. -/
theorem C3_gemini_resolution (name : String)
    (hg : strContainsSub (toAsciiLowercase name) "gemini" = true) :
    resolveScript .errNotPresent name = some geminiPath := by
  simp [resolveScript, default_node_script_from_exe, hg]

/-- Witness for C3 with mixed case and surrounding characters. -/
theorem C3_gemini_resolution_witness :
    strContainsSub (toAsciiLowercase "Gemini-Shim") "gemini" = true ∧
    resolveScript .errNotPresent "Gemini-Shim" = some geminiPath :=
  ⟨rfl, C3_gemini_resolution "Gemini-Shim" rfl⟩

/-- Claim C4, counterexample: an invocation name that contains `codex` but
also contains `gemini` resolves to the Gemini path, not the Codex path, so
the claim as stated (every name containing `codex` yields the Codex path)
is false. -/
theorem C4_codex_counterexample :
    strContainsSub (toAsciiLowercase "geminicodex") "codex" = true ∧
    resolveScript .errNotPresent "geminicodex" = some geminiPath ∧
    resolveScript .errNotPresent "geminicodex" ≠ some codexPath :=
  ⟨rfl, rfl, by decide⟩

/-- Claim C4 as amended: with the override unset, every invocation name whose
ASCII lowercasing contains `codex` and does not contain `gemini` resolves to
exactly the hardcoded Codex path. -/
theorem C4_codex_resolution (name : String)
    (hc : strContainsSub (toAsciiLowercase name) "codex" = true)
    (hg : strContainsSub (toAsciiLowercase name) "gemini" = false) :
    resolveScript .errNotPresent name = some codexPath := by
  simp [resolveScript, default_node_script_from_exe, hg, hc]

/-- Witness for the amended C4 with mixed case and surrounding characters. -/
theorem C4_codex_resolution_witness :
    strContainsSub (toAsciiLowercase "Codex-Shim") "codex" = true ∧
    strContainsSub (toAsciiLowercase "Codex-Shim") "gemini" = false ∧
    resolveScript .errNotPresent "Codex-Shim" = some codexPath :=
  ⟨rfl, rfl, C4_codex_resolution "Codex-Shim" rfl rfl⟩

/-- Claim C5: whenever a script path is resolved, the spawned command is the
program `node` with first argument the resolved script followed by all
forwarded arguments (everything after the invocation name) in identical
order and content. -/
theorem C5_argument_forwarding (argv : List String) (env : VarResult)
    (child : SpawnResult) (script : String)
    (h : resolveScript env (argv.headD "") = some script) :
    (mainShim argv env child).spawned =
      some { program := "node", args := script :: argv.tail } := by
  cases child with
  | ok code => rw [mainShim_resolved_ok argv env code script h]
  | err e => rw [mainShim_resolved_err argv env e script h]

/-- Witness for C5: `gemini` invocation with two forwarded arguments, one
containing spaces. -/
theorem C5_argument_forwarding_witness :
    resolveScript .errNotPresent "gemini" = some geminiPath ∧
    (mainShim ["gemini", "--flag", "value with spaces"] .errNotPresent
        (.ok (some 0))).spawned =
      some { program := "node"
             args := [geminiPath, "--flag", "value with spaces"] } :=
  ⟨rfl, C5_argument_forwarding ["gemini", "--flag", "value with spaces"]
    .errNotPresent (.ok (some 0)) geminiPath rfl⟩

/-- Claim C6: when the child terminates with an explicit code `n`, the shim
exits with `n` truncated to an 8-bit unsigned value (`n mod 256`); in
particular it equals `n` whenever `0 ≤ n ≤ 255`. -/
theorem C6_exit_code_propagation (argv : List String) (env : VarResult)
    (script : String) (n : Int)
    (h : resolveScript env (argv.headD "") = some script) :
    (mainShim argv env (.ok (some n))).exitCode = (n % 256).toNat ∧
    (0 ≤ n → n ≤ 255 →
      ((mainShim argv env (.ok (some n))).exitCode : Int) = n) := by
  have hmain : (mainShim argv env (.ok (some n))).exitCode = (n % 256).toNat := by
    rw [mainShim_resolved_ok argv env (some n) script h]
    rfl
  refine ⟨hmain, fun h0 h255 => ?_⟩
  rw [hmain, Int.emod_eq_of_lt h0 (by omega)]
  exact Int.toNat_of_nonneg h0

/-- Witness for C6 at child exit code 42. -/
theorem C6_exit_code_propagation_witness :
    resolveScript .errNotPresent "gemini" = some geminiPath ∧
    ((mainShim ["gemini"] .errNotPresent (.ok (some 42))).exitCode : Int) = 42 :=
  ⟨rfl, (C6_exit_code_propagation ["gemini"] .errNotPresent geminiPath 42
    rfl).2 (by decide) (by decide)⟩

/-- Claim C7: when the child starts but terminates without a reported exit
code, the shim exits with the fallback code 1, emits no diagnostic, and the
spawn did happen. -/
theorem C7_no_code_fallback (argv : List String) (env : VarResult)
    (script : String)
    (h : resolveScript env (argv.headD "") = some script) :
    mainShim argv env (.ok none) =
      { exitCode := 1
        diag := none
        spawned := some { program := "node", args := script :: argv.tail } } :=
  mainShim_resolved_ok argv env none script h

/-- Witness for C7 on a `gemini` invocation. -/
theorem C7_no_code_fallback_witness :
    resolveScript .errNotPresent "gemini" = some geminiPath ∧
    mainShim ["gemini"] .errNotPresent (.ok none) =
      { exitCode := 1
        diag := none
        spawned := some { program := "node", args := [geminiPath] } } :=
  ⟨rfl, C7_no_code_fallback ["gemini"] .errNotPresent geminiPath rfl⟩

/-- Claim C8: when the child fails to start at all, the shim writes the
launch-failure diagnostic to the error stream and exits with code 1. -/
theorem C8_launch_failure (argv : List String) (env : VarResult)
    (script : String) (e : String)
    (h : resolveScript env (argv.headD "") = some script) :
    mainShim argv env (.err e) =
      { exitCode := 1
        diag := some (.launchErr (launchErrMsg e))
        spawned := some { program := "node", args := script :: argv.tail } } :=
  mainShim_resolved_err argv env e script h

/-- Witness for C8 with a concrete launch error text. -/
theorem C8_launch_failure_witness :
    resolveScript .errNotPresent "gemini" = some geminiPath ∧
    mainShim ["gemini"] .errNotPresent (.err "No such file or directory") =
      { exitCode := 1
        diag := some (.launchErr
          (launchErrMsg "No such file or directory"))
        spawned := some { program := "node", args := [geminiPath] } } :=
  ⟨rfl, C8_launch_failure ["gemini"] .errNotPresent geminiPath
    "No such file or directory" rfl⟩

/-- Claim C9: with an empty argument vector the invocation name defaults to
the empty string (no panic in the model is possible: `mainShim` is total),
and with the override unset or blank the run exits with code 2 and spawns
nothing. -/
theorem C9_empty_argv (child : SpawnResult) (env : VarResult)
    (henv : env = .errNotPresent ∨
      ∃ v, env = .ok v ∧ (rustTrim v).data.isEmpty = true) :
    mainShim [] env child =
      { exitCode := 2
        diag := some (.noScript (noScriptMsg ""))
        spawned := none } := by
  have hdef : default_node_script_from_exe "" = none := rfl
  have hres : resolveScript env "" = none := by
    rcases henv with rfl | ⟨v, rfl, hv⟩
    · exact hdef
    · simp [resolveScript, hv, hdef]
  simp [mainShim, hres]

/-- Witness for C9 with the variable absent. -/
theorem C9_empty_argv_witness :
    (VarResult.errNotPresent = VarResult.errNotPresent ∨
      ∃ v, VarResult.errNotPresent = VarResult.ok v ∧
        (rustTrim v).data.isEmpty = true) ∧
    mainShim [] .errNotPresent (.ok (some 0)) =
      { exitCode := 2
        diag := some (.noScript (noScriptMsg ""))
        spawned := none } :=
  ⟨Or.inl rfl, C9_empty_argv (.ok (some 0)) .errNotPresent (Or.inl rfl)⟩

/-- Claim C10: a `NotUnicode` error from `env::var` is treated exactly as
if the variable were unset — the whole observable outcome coincides, for
every argument vector and every child behaviour, so name-based resolution
proceeds with no distinguishing diagnostic. -/
theorem C10_not_unicode_as_unset (argv : List String) (child : SpawnResult) :
    mainShim argv .errNotUnicode child = mainShim argv .errNotPresent child :=
  rfl

end ForgeAgentShim
